import Mathlib

/-!
Verification of the NeuroTrack productivity tracker's analytical core against
its natural-language specification.  The Python modules `data_handler.py`,
`utils.py`, `time_series_forecast.py` and `recommendations.py` are shallowly
embedded below: calendar dates become day numbers (`Int`, day 0 a Monday),
timestamps become minutes since the epoch midnight, pandas frames become lists
of records, and the unseeded numpy random draws become explicit oracle
functions supplied as arguments.
-/

set_option maxHeartbeats 1000000

deriving instance DecidableEq for Except

namespace DataHandler

/-- A task record as `data_handler.py` keeps it in the frame: `date` is the
calendar day number, `start_time`/`end_time` are full timestamps in minutes
since the epoch midnight, `time_taken` is the duration in minutes. -/
structure TaskRec where
  date : Int
  task : String
  start_time : Int
  end_time : Int
  time_taken : Int
  completed : Bool
  deriving DecidableEq

/-- Minutes in a day, used by `datetime.combine` to build a full timestamp
from a date and a time-of-day. -/
def minutesPerDay : Int := 1440

/-- Embedding of `is_overlapping` (data_handler.py): filter the frame to the
rows of `taskDate`, then report whether any existing row satisfies
`new_start < existing_end and new_end > existing_start`. -/
def is_overlapping (newStart newEnd : Int) (taskDate : Int) (df : List TaskRec) : Bool :=
  (df.filter (fun r => r.date == taskDate)).any
    (fun r => decide (newStart < r.end_time) && decide (newEnd > r.start_time))

/-- Task-name normalization done by `clean_data`: lowercase and strip. -/
def normalizeRow (r : TaskRec) : TaskRec :=
  { r with task := r.task.toLower.trim }

/-- The duplicate key `clean_data` uses: `(date, task, start_time, time_taken)`. -/
def dedupKey (r : TaskRec) : Int × String × Int × Int :=
  (r.date, r.task, r.start_time, r.time_taken)

/-- `drop_duplicates` keeping the first row of each duplicate key. -/
def dropDups (seen : List (Int × String × Int × Int)) : List TaskRec → List TaskRec
  | [] => []
  | r :: rs =>
    if dedupKey r ∈ seen then dropDups seen rs
    else r :: dropDups (dedupKey r :: seen) rs

/-- `clean_data`'s end-time repair: a row whose end time lies before its start
time gets `start_time + time_taken` instead. -/
def fixEndTime (r : TaskRec) : TaskRec :=
  if r.end_time < r.start_time then { r with end_time := r.start_time + r.time_taken } else r

/-- Embedding of `clean_data` (data_handler.py) on the fields this record type
carries: normalize task names, drop rows with non-positive duration, drop
duplicate keys, then repair inconsistent end times.  (Type coercions and NaN
filling are identities here because the record fields are total.) -/
def clean_data (df : List TaskRec) : List TaskRec :=
  (dropDups [] ((df.map normalizeRow).filter (fun r => decide (0 < r.time_taken)))).map fixEndTime

/-- The overlap-rejection message of `add_manual_task`. -/
def overlapMsg : String := "Task time overlaps with an existing task on this date. Please adjust the time."

/-- Embedding of `add_manual_task` (data_handler.py).  The first component of
the result is the trace of frames handed to `save_data` (the persisted-file
writes); the second is the returned frame or the raised error.  The full start
timestamp is `datetime.combine(task_date, start_time_obj)`; the end timestamp
is computed from `time_taken` when `end_time_obj` is absent. -/
def add_manual_task (df : List TaskRec) (task_name : String) (time_taken : Int)
    (task_date : Int) (start_time_obj : Int) (end_time_obj : Option Int) :
    List (List TaskRec) × Except String (List TaskRec) :=
  let full_start := task_date * minutesPerDay + start_time_obj
  let full_end := match end_time_obj with
    | none => full_start + time_taken
    | some e => task_date * minutesPerDay + e
  if is_overlapping full_start full_end task_date df then
    ([], Except.error overlapMsg)
  else
    let newTask : TaskRec :=
      { date := task_date, task := task_name.trim, start_time := full_start,
        end_time := full_end, time_taken := time_taken, completed := false }
    let data := clean_data (df ++ [newTask])
    ([data], Except.ok data)

/-- The spec-side notion for C1: the half-open interval `[s1, e1)` meets
`[s2, e2)`, i.e. their intersection contains a point. -/
def intervalsMeet (s1 e1 s2 e2 : Int) : Prop := max s1 s2 < min e1 e2

instance (s1 e1 s2 e2 : Int) : Decidable (intervalsMeet s1 e1 s2 e2) := by
  unfold intervalsMeet; infer_instance

end DataHandler

namespace DataHandler

theorem is_overlapping_iff (ns ne d : Int) (df : List TaskRec) :
    is_overlapping ns ne d df = true ↔
      ∃ r ∈ df, r.date = d ∧ ns < r.end_time ∧ r.start_time < ne := by
  unfold is_overlapping
  rw [List.any_eq_true]
  constructor
  · rintro ⟨r, hr, hcond⟩
    rw [List.mem_filter] at hr
    rw [Bool.and_eq_true, decide_eq_true_iff, decide_eq_true_iff] at hcond
    exact ⟨r, hr.1, by simpa using hr.2, hcond.1, hcond.2⟩
  · rintro ⟨r, hr, hd, h1, h2⟩
    refine ⟨r, List.mem_filter.2 ⟨hr, by simpa using hd⟩, ?_⟩
    simp [h1, h2]

/-- C1: for every record set and every new manual task whose half-open
`[start, end)` interval meets the interval of some existing same-day task,
`add_manual_task` raises the overlap-rejection error; when instead the new
task's start equals an existing same-day task's end and its interval meets no
same-day task's interval, the task is added without error. -/
theorem add_manual_task_overlap_rejection
    (df : List TaskRec) (nm : String) (tt td st : Int) (eo : Option Int) (fs fe : Int)
    (hfs : fs = td * minutesPerDay + st)
    (hfe : fe = (match eo with | none => fs + tt | some e => td * minutesPerDay + e))
    (hwf : fs < fe)
    (hdf : ∀ r ∈ df, r.date = td → r.start_time < r.end_time) :
    ((∃ r ∈ df, r.date = td ∧ intervalsMeet fs fe r.start_time r.end_time) →
        (add_manual_task df nm tt td st eo).2 = Except.error overlapMsg) ∧
    (((∃ r ∈ df, r.date = td ∧ fs = r.end_time) ∧
        (∀ r ∈ df, r.date = td → ¬ intervalsMeet fs fe r.start_time r.end_time)) →
        ∃ d, (add_manual_task df nm tt td st eo).2 = Except.ok d) := by
  subst hfs
  constructor
  · rintro ⟨r, hr, hd, hmeet⟩
    have hov : is_overlapping (td * minutesPerDay + st) fe td df = true := by
      rw [is_overlapping_iff]
      rcases max_lt_iff.1 (lt_of_lt_of_le hmeet (min_le_left _ _)) with ⟨-, hrs⟩
      rcases max_lt_iff.1 (lt_of_lt_of_le hmeet (min_le_right _ _)) with ⟨hfsre, -⟩
      exact ⟨r, hr, hd, hfsre, hrs⟩
    simp only [add_manual_task, ← hfe, hov, if_true]
  · rintro ⟨-, hnone⟩
    have hov : is_overlapping (td * minutesPerDay + st) fe td df = false := by
      rw [Bool.eq_false_iff, Ne, is_overlapping_iff]
      rintro ⟨r, hr, hd, h1, h2⟩
      exact hnone r hr hd
        (lt_min_iff.2 ⟨max_lt_iff.2 ⟨hwf, h2⟩, max_lt_iff.2 ⟨h1, hdf r hr hd⟩⟩)
    simp only [add_manual_task, ← hfe, hov, Bool.false_eq_true, if_false]
    exact ⟨_, rfl⟩

/-- C1 witness: a 09:15–09:30 task overlapping an existing 09:00–09:30 task on
day 0 is rejected, while a task starting exactly at 09:30 is added. -/
theorem add_manual_task_overlap_rejection_witness :
    (add_manual_task [⟨0, "standup", 540, 570, 30, false⟩] "quick" 15 0 555 none).2 =
        Except.error overlapMsg ∧
    ∃ d, (add_manual_task [⟨0, "standup", 540, 570, 30, false⟩] "docs" 60 0 570 none).2 =
        Except.ok d :=
  ⟨(add_manual_task_overlap_rejection [⟨0, "standup", 540, 570, 30, false⟩]
      "quick" 15 0 555 none 555 570 (by decide) rfl (by decide) (by decide)).1
      (by decide),
   (add_manual_task_overlap_rejection [⟨0, "standup", 540, 570, 30, false⟩]
      "docs" 60 0 570 none 570 630 (by decide) rfl (by decide) (by decide)).2
      ⟨by decide, by decide⟩⟩

/-- C10: whenever the overlap check fires, `add_manual_task` raises the
overlap-rejection error before any record is constructed or appended and
before any write to the persisted data file: the trace of `save_data` calls is
empty and no frame is returned. -/
theorem add_manual_task_atomic
    (df : List TaskRec) (nm : String) (tt td st : Int) (eo : Option Int) (fs fe : Int)
    (hfs : fs = td * minutesPerDay + st)
    (hfe : fe = (match eo with | none => fs + tt | some e => td * minutesPerDay + e))
    (hov : is_overlapping fs fe td df = true) :
    add_manual_task df nm tt td st eo = ([], Except.error overlapMsg) := by
  subst hfs
  simp only [add_manual_task, ← hfe, hov, if_true]

/-- C10 witness: rejecting a 09:30–09:45 task that overlaps an existing
09:00–10:00 task performs no save and returns only the error. -/
theorem add_manual_task_atomic_witness :
    add_manual_task [⟨0, "deep work", 540, 600, 60, false⟩] "b" 15 0 570 none =
      ([], Except.error overlapMsg) :=
  add_manual_task_atomic [⟨0, "deep work", 540, 600, 60, false⟩] "b" 15 0 570 none
    570 585 (by decide) rfl (by decide)

end DataHandler

namespace Utils

/-- The fields of a task row that `calculate_productivity_score` (utils.py)
reads: duration, completion flag and category. -/
structure URow where
  time_taken : ℚ
  completed : Bool
  category : String
  deriving DecidableEq

/-- `DEFAULT_PRODUCTIVE_CATEGORIES` from data_constants.py. -/
def DEFAULT_PRODUCTIVE_CATEGORIES : List String :=
  ["Coding", "Academics", "Development", "Project"]

/-- The weight dictionary with its two keys `time` and `completion`. -/
structure Weights where
  time : ℚ
  completion : ℚ
  deriving DecidableEq

/-- `DEFAULT_WEIGHTS` from data_constants.py. -/
def DEFAULT_WEIGHTS : Weights := ⟨7/10, 3/10⟩

/-- Python's `round(x, 1)`: round to one decimal place. -/
def round1 (x : ℚ) : ℚ := (round (10 * x) : ℤ) / 10

/-- The effective category list: `productive_categories or DEFAULT_PRODUCTIVE_CATEGORIES`
(a missing or empty list is falsy in Python and falls back to the default). -/
def effectiveCats (cats : Option (List String)) : List String :=
  match cats with
  | none => DEFAULT_PRODUCTIVE_CATEGORIES
  | some l => if l.isEmpty then DEFAULT_PRODUCTIVE_CATEGORIES else l

/-- `df["time_taken"].sum()`. -/
def totalTime (df : List URow) : ℚ := (df.map (fun r => r.time_taken)).sum

/-- `df[df["completed"] & df["category"].isin(productive_cats)]["time_taken"].sum()`:
the time of rows that are both completed and in a productive category. -/
def productiveTime (df : List URow) (cats : List String) : ℚ :=
  ((df.filter (fun r => r.completed && cats.contains r.category)).map
    (fun r => r.time_taken)).sum

/-- `(completed_tasks / total_tasks * 100) if total_tasks > 0 else 0`. -/
def completionRate (df : List URow) : ℚ :=
  if 0 < df.length then ((df.filter (fun r => r.completed)).length : ℚ) / df.length * 100
  else 0

/-- Embedding of `calculate_productivity_score` (utils.py): empty frames give
zeros, out-of-range or non-unit-sum weights raise `ValueError` (the weight-sum
check uses the source's `abs(...) < 0.0001` tolerance), and otherwise the
result is the rounded tuple `(score, productive_time, total_time,
completion_rate)`. -/
def calculate_productivity_score (df : List URow)
    (productive_categories : Option (List String)) (weights : Option Weights) :
    Except String (ℚ × ℚ × ℚ × ℚ) :=
  if df.isEmpty then Except.ok (0, 0, 0, 0)
  else
    let productive_cats := effectiveCats productive_categories
    let w := weights.getD DEFAULT_WEIGHTS
    if ¬ (0 ≤ w.time ∧ w.time ≤ 1) ∨ ¬ (0 ≤ w.completion ∧ w.completion ≤ 1) then
      Except.error "Weights must be between 0 and 1"
    else if ¬ (|w.time + w.completion - 1| < 1 / 10000) then
      Except.error "Weights must sum to 1.0"
    else
      let total_time := totalTime df
      let productive_time := productiveTime df productive_cats
      let completion_rate := completionRate df
      let time_component := if 0 < total_time then productive_time / total_time else 0
      let completion_component := completion_rate / 100
      let score := (time_component * w.time + completion_component * w.completion) * 100
      Except.ok (round1 score, round1 productive_time, round1 total_time,
        round1 completion_rate)

/-- C7 counterexample: on a frame with an uncompleted "Coding" task (30 min)
and a completed "Other" task (30 min), with weights (1/2, 1/2), the code
returns score 25 while the claimed formula (time on productive categories over
total time, with no completion requirement) gives 50; and with weights
(1/2, 10001/20000), which do not sum to 1, no `ValueError` is raised. -/
theorem calculate_productivity_score_cex :
    calculate_productivity_score [⟨30, false, "Coding"⟩, ⟨30, true, "Other"⟩]
        none (some ⟨1/2, 1/2⟩) = Except.ok (25, 0, 60, 50) ∧
    ((((30 : ℚ) / 60) * (1/2) + (50 / 100) * (1/2)) * 100 = 50 ∧ (25 : ℚ) ≠ 50) ∧
    (calculate_productivity_score [⟨30, false, "Coding"⟩, ⟨30, true, "Other"⟩]
        none (some ⟨1/2, 10001/20000⟩) = Except.ok (25, 0, 60, 50) ∧
      (1/2 : ℚ) + 10001/20000 ≠ 1) := by
  refine ⟨?_, ⟨by norm_num, by norm_num⟩, ?_, by norm_num⟩ <;>
    · have hOther : (["Coding", "Academics", "Development", "Project"].contains "Other") = false := by
        decide
      rw [calculate_productivity_score]
      simp only [effectiveCats, totalTime, productiveTime, completionRate, round1,
        DEFAULT_PRODUCTIVE_CATEGORIES, List.filter_cons, List.filter_nil, List.isEmpty_cons,
        Bool.false_eq_true, if_false, Option.getD_some, List.map_cons, List.map_nil,
        List.sum_cons, List.sum_nil, List.length_cons, List.length_nil, hOther,
        Bool.false_and, Bool.true_and, Bool.and_false, Bool.and_true, if_true]
      norm_num [round_eq, abs_of_nonneg]

/-- C7 amended: for every non-empty frame and weights each in `[0, 1]`,
`calculate_productivity_score` returns the tuple whose score is
`((completed productive time / total time) * w_time + (completion rate / 100)
* w_completion) * 100` rounded to one decimal (the time component being 0 when
the total time is not positive), and it raises `ValueError` exactly when
`|w_time + w_completion - 1| >= 0.0001`. -/
theorem calculate_productivity_score_spec (df : List URow)
    (cats : Option (List String)) (w : Weights) (hne : ¬ df.isEmpty)
    (ht : 0 ≤ w.time ∧ w.time ≤ 1) (hc : 0 ≤ w.completion ∧ w.completion ≤ 1) :
    (¬ |w.time + w.completion - 1| < 1 / 10000 →
      calculate_productivity_score df cats (some w) =
        Except.error "Weights must sum to 1.0") ∧
    (|w.time + w.completion - 1| < 1 / 10000 →
      calculate_productivity_score df cats (some w) =
        Except.ok
          (round1 (((if 0 < totalTime df then
                productiveTime df (effectiveCats cats) / totalTime df else 0) * w.time +
              completionRate df / 100 * w.completion) * 100),
            round1 (productiveTime df (effectiveCats cats)), round1 (totalTime df),
            round1 (completionRate df))) := by
  constructor
  · intro hsum
    simp only [calculate_productivity_score, if_neg hne, Option.getD_some]
    rw [if_neg (by push_neg; exact ⟨ht, hc⟩), if_pos hsum]
  · intro hsum
    simp only [calculate_productivity_score, if_neg hne, Option.getD_some]
    rw [if_neg (by push_neg; exact ⟨ht, hc⟩), if_neg (by simpa using hsum)]

/-- C7 amended witness: a concrete frame and exact weights (0.7, 0.3). -/
theorem calculate_productivity_score_spec_witness :
    (¬ |(7/10 : ℚ) + 3/10 - 1| < 1 / 10000 →
      calculate_productivity_score [⟨60, true, "Coding"⟩, ⟨30, false, "Other"⟩]
          none (some ⟨7/10, 3/10⟩) = Except.error "Weights must sum to 1.0") ∧
    (|(7/10 : ℚ) + 3/10 - 1| < 1 / 10000 →
      calculate_productivity_score [⟨60, true, "Coding"⟩, ⟨30, false, "Other"⟩]
          none (some ⟨7/10, 3/10⟩) =
        Except.ok
          (round1 (((if 0 < totalTime [⟨60, true, "Coding"⟩, ⟨30, false, "Other"⟩] then
                productiveTime [⟨60, true, "Coding"⟩, ⟨30, false, "Other"⟩]
                    (effectiveCats none) /
                  totalTime [⟨60, true, "Coding"⟩, ⟨30, false, "Other"⟩] else 0) * (7/10) +
              completionRate [⟨60, true, "Coding"⟩, ⟨30, false, "Other"⟩] / 100 * (3/10)) * 100),
            round1 (productiveTime [⟨60, true, "Coding"⟩, ⟨30, false, "Other"⟩]
              (effectiveCats none)),
            round1 (totalTime [⟨60, true, "Coding"⟩, ⟨30, false, "Other"⟩]),
            round1 (completionRate [⟨60, true, "Coding"⟩, ⟨30, false, "Other"⟩]))) :=
  calculate_productivity_score_spec [⟨60, true, "Coding"⟩, ⟨30, false, "Other"⟩]
    none ⟨7/10, 3/10⟩ (by decide) (by norm_num) (by norm_num)

end Utils

namespace Forecast

/-- A daily time series as the forecaster handles it: (date, value) points,
dates as day numbers with day 0 a Monday. -/
abbrev Series := List (Int × ℝ)

/-- The value column of a series. -/
def vals (ts : Series) : List ℝ := ts.map Prod.snd

/-- `ts.index[-1]`, the last historical date. -/
def lastDate (ts : Series) : Int := (ts.getLastD (0, 0)).1

/-- Arithmetic mean of a list (`Series.mean` / `np.mean`). -/
noncomputable def meanR (xs : List ℝ) : ℝ := xs.sum / xs.length

/-- Sample variance with pandas' default `ddof=1`. -/
noncomputable def sampleVar (xs : List ℝ) : ℝ :=
  ((xs.map (fun x => (x - meanR xs) ^ 2)).sum) / ((xs.length : ℝ) - 1)

/-- `Series.std()`: the sample standard deviation. -/
noncomputable def stdR (xs : List ℝ) : ℝ := Real.sqrt (sampleVar xs)

/-- `date.weekday()` for a day number (day 0 is a Monday, so Monday = 0). -/
def weekday (d : Int) : ℕ := (d % 7).toNat

/-- Whether `sub` is a prefix of the second list. -/
def prefixMatch : List Char → List Char → Bool
  | [], _ => true
  | _ :: _, [] => false
  | a :: as, b :: bs => a == b && prefixMatch as bs

/-- Python's substring test `sub in s`, on character lists. -/
def hasSub (sub : List Char) : List Char → Bool
  | [] => sub.isEmpty
  | c :: tl => prefixMatch sub (c :: tl) || hasSub sub tl

/-- `s.lower()` as a character list. -/
def strLower (s : String) : List Char := s.data.map Char.toLower

/-- The percentage-metric test `'score' in str(ts.name).lower() or 'rate' in
str(ts.name).lower()`. -/
def isPercentName (name : String) : Bool :=
  hasSub "score".data (strLower name) || hasSub "rate".data (strLower name)

/-- The bounding applied to every forecast value: percentage metrics are
clamped to `[0, 100]`, every other metric is floored at 0. -/
noncomputable def bound (name : String) (v : ℝ) : ℝ :=
  if isPercentName name then max 0 (min 100 v) else max 0 v

/-- `np.clip(x, 0, 100)`. -/
noncomputable def clip0100 (x : ℝ) : ℝ := min (max x 0) 100

/-- Embedding of `_get_seasonality_factor`: the fixed weekday table with the
dictionary's default of 1.0 for out-of-range keys. -/
noncomputable def get_seasonality_factor (day_of_week : ℕ) : ℝ :=
  if day_of_week = 0 then 0.95
  else if day_of_week = 1 then 1.05
  else if day_of_week = 2 then 1.10
  else if day_of_week = 3 then 1.05
  else if day_of_week = 4 then 0.90
  else if day_of_week = 5 then 0.60
  else if day_of_week = 6 then 0.50
  else 1.0

/-- `np.linspace(a, b, n)`. -/
noncomputable def linspace (a b : ℝ) (n : ℕ) : List ℝ :=
  if n = 1 then [a] else (List.range n).map (fun i => a + (b - a) * i / ((n : ℝ) - 1))

/-- Embedding of `_create_fallback_forecast`.  `today` stands for
`datetime.now().date()`; `u6080` supplies the `np.random.uniform(60, 80)`
draws and `g10` the standard-normal draws scaled by 10% of the mean.  Note the
source indexes the seasonality lookup from 0 here (unlike the main forecast
loops, which are 1-indexed). -/
noncomputable def create_fallback_forecast (ts : Series) (horizon : ℕ) (today : Int)
    (g10 u6080 : ℕ → ℝ) : Series :=
  if ts.isEmpty then
    (List.range horizon).map (fun k => (today + (k + 1 : ℕ), u6080 k))
  else
    let last := lastDate ts
    let m := meanR (vals ts)
    let base := linspace m (m * 1.1) horizon
    (List.range horizon).map (fun k =>
      (last + (k + 1 : ℕ),
        clip0100 (base.getD k 0 * get_seasonality_factor ((weekday last + k) % 7) +
          m * 0.1 * g10 k)))

/-- The effective moving-average window: shrunk to `max(3, n // 2)` when the
history is shorter than the requested window. -/
def maWindow (n window : ℕ) : ℕ := if n < window then max 3 (n / 2) else window

/-- `ma.iloc[-1]`: the rolling mean (window `w`, `min_periods=1`) at the last
position, i.e. the mean of the last `min(w, n)` values. -/
noncomputable def maLastMA (v : List ℝ) (w : ℕ) : ℝ := meanR (v.drop (v.length - w))

/-- The rolling mean series `ts.rolling(window=w, min_periods=1).mean()`. -/
noncomputable def rollingMean (v : List ℝ) (w : ℕ) : List ℝ :=
  (List.range v.length).map (fun i => meanR ((v.take (i + 1)).drop (i + 1 - w)))

/-- The moving-average trend components: the short-window slope over the last
`min(7, n)` points when `n >= 3`, and half the full-history slope when
`n >= 2`. -/
noncomputable def maTrendComponents (v : List ℝ) : List ℝ :=
  (if 3 ≤ v.length then
    [(v.getLastD 0 - v.getD (v.length - min 7 v.length) 0) / ((min 7 v.length : ℕ) : ℝ)]
  else []) ++
  (if 2 ≤ v.length then
    [(v.getLastD 0 - v.getD 0 0) / (v.length : ℝ) * 0.5]
  else [])

/-- `np.mean(trends)` when any component exists, else 0. -/
noncomputable def maTrend (v : List ℝ) : ℝ :=
  if (maTrendComponents v).isEmpty then 0 else meanR (maTrendComponents v)

/-- `volatility = ts.std() if ts.std() > 0 else ts.mean() * 0.15`. -/
noncomputable def maVol (v : List ℝ) : ℝ :=
  if stdR v > 0 then stdR v else meanR v * 0.15

/-- One raw step of the moving-average forecast, before bounding:
`base * seasonality + trend*i*0.8 + noise`, the noise being the scaled
standard-normal draw `g i` (for `np.random.normal(0, vol*0.2)`) or the
`np.random.uniform(-2, 2)` draw `u i` when the volatility is not positive. -/
noncomputable def maStep (v : List ℝ) (w : ℕ) (last : Int) (g u : ℕ → ℝ) (i : ℕ) : ℝ :=
  maLastMA v w * get_seasonality_factor ((weekday last + i) % 7) + maTrend v * i * 0.8 +
    (if maVol v > 0 then maVol v * 0.2 * g i else u i)

/-- Embedding of `moving_average_forecast`.  Returns the forecast series and
the rolling-mean baseline.  With fewer than 2 points the fallback path is
taken. -/
noncomputable def moving_average_forecast (name : String) (ts : Series)
    (window horizon : ℕ) (g u : ℕ → ℝ) (today : Int) (g10 u6080 : ℕ → ℝ) :
    Series × List ℝ :=
  if ts.length < 2 then (create_fallback_forecast ts horizon today g10 u6080, vals ts)
  else
    let v := vals ts
    let w := maWindow ts.length window
    let last := lastDate ts
    ((List.range horizon).map (fun j =>
        (last + (j + 1 : ℕ), bound name (maStep v w last g u (j + 1)))),
      rollingMean v w)

/-- The single-exponential-smoothing recursion after the first point. -/
noncomputable def smoothedFrom (alpha prev : ℝ) : List ℝ → List ℝ
  | [] => []
  | y :: ys =>
    (alpha * y + (1 - alpha) * prev) :: smoothedFrom alpha (alpha * y + (1 - alpha) * prev) ys

/-- The smoothed list: `smoothed = [y0]; smoothed.append(alpha*y_i + (1-alpha)*smoothed[-1])`. -/
noncomputable def smoothedList (alpha : ℝ) : List ℝ → List ℝ
  | [] => []
  | y :: ys => y :: smoothedFrom alpha y ys

/-- The exponential-smoothing trend components: recent slope over
`min(3, n)` points when `n >= 3`, weekly slope times 0.7 when `n >= 7`, and
half the full-history slope when `n >= 2`. -/
noncomputable def esTrendComponents (s : List ℝ) : List ℝ :=
  (if 3 ≤ s.length then
    [(s.getLastD 0 - s.getD (s.length - min 3 s.length) 0) / ((min 3 s.length : ℕ) : ℝ)]
  else []) ++
  (if 7 ≤ s.length then
    [(s.getLastD 0 - s.getD (s.length - 7) 0) / 7 * 0.7]
  else []) ++
  (if 2 ≤ s.length then
    [(s.getLastD 0 - s.getD 0 0) / (s.length : ℝ) * 0.5]
  else [])

/-- `np.mean(trend_components)` when nonempty, else the
`np.random.uniform(-1, 1)` fallback draw `ut`. -/
noncomputable def esTrend (s : List ℝ) (ut : ℝ) : ℝ :=
  if (esTrendComponents s).isEmpty then ut else meanR (esTrendComponents s)

/-- One raw step of the exponential-smoothing forecast, before bounding:
`(smoothed[-1] + trend*i*0.6) * seasonality + variation`, the variation being
the scaled standard-normal draw `g i` (for `np.random.normal(0, std*0.15)`)
or the `np.random.uniform(-3, 3)` draw `u i` when the historical standard
deviation is not positive. -/
noncomputable def esStep (s : List ℝ) (trend : ℝ) (last : Int) (sd : ℝ)
    (g u : ℕ → ℝ) (i : ℕ) : ℝ :=
  (s.getLastD 0 + trend * i * 0.6) * get_seasonality_factor ((weekday last + i) % 7) +
    (if sd > 0 then sd * 0.15 * g i else u i)

/-- Embedding of `exponential_smoothing_forecast`.  Returns the forecast
series and the smoothed series.  With fewer than 2 points the fallback path
is taken. -/
noncomputable def exponential_smoothing_forecast (name : String) (ts : Series)
    (alpha : ℝ) (horizon : ℕ) (g u : ℕ → ℝ) (ut : ℝ) (today : Int)
    (g10 u6080 : ℕ → ℝ) : Series × List ℝ :=
  if ts.length < 2 then (create_fallback_forecast ts horizon today g10 u6080, vals ts)
  else
    let v := vals ts
    let s := smoothedList alpha v
    let trend := esTrend s ut
    let last := lastDate ts
    ((List.range horizon).map (fun j =>
        (last + (j + 1 : ℕ), bound name (esStep s trend last (stdR v) g u (j + 1)))),
      s)

/-- A raw task row as the forecasting entry points read it: a possibly
invalid date (`pd.to_datetime(..., errors='coerce')` turns junk into `NaT`,
modelled as `none`), a duration and a completion flag. -/
structure FRow where
  date : Option Int
  time_taken : ℝ
  completed : Bool

/-- The metric selector of `prepare_time_series`. -/
inductive Metric where
  | time_taken
  | task_count
  | completion_rate

/-- Insertion into an ascending list of day numbers. -/
def insertAsc (x : Int) : List Int → List Int
  | [] => [x]
  | y :: ys => if x ≤ y then x :: y :: ys else y :: insertAsc x ys

/-- Ascending sort of day numbers (pandas `groupby` sorts its keys). -/
def sortAsc (l : List Int) : List Int := l.foldr insertAsc []

/-- Embedding of `prepare_time_series`: drop rows with invalid dates,
aggregate per date (sum of durations, row count, or completed-mean x 100),
then resample to a dense daily range from the earliest to the latest date,
filling absent days with 0. -/
noncomputable def prepare_time_series (data : List FRow) (metric : Metric) : Series :=
  let valid := data.filterMap (fun r => r.date.map (fun d => (d, r)))
  if valid.isEmpty then []
  else
    let ds := valid.map Prod.fst
    let lo := ds.foldl min (ds.headD 0)
    let hi := ds.foldl max (ds.headD 0)
    (List.range (hi - lo + 1).toNat).map (fun k =>
      let d := lo + (k : ℕ)
      let rows := (valid.filter (fun p => p.1 == d)).map Prod.snd
      (d, match metric with
        | .time_taken => (rows.map (fun r => r.time_taken)).sum
        | .task_count => (rows.length : ℝ)
        | .completion_rate =>
          if 0 < rows.length then
            ((rows.filter (fun r => r.completed)).length : ℝ) / rows.length * 100
          else 0))

/-- The body of `forecast_productivity_score` up to its catch-all handler:
daily completed-fraction scores per distinct date (no resampling here),
the fallback pair when fewer than 2 days exist, else the exponential
smoothing forecast with alpha 0.4.  The final debug block evaluates
`forecast.iloc[-1]`, which raises `IndexError` when the forecast is empty
(horizon 0). -/
noncomputable def fps_body (data : List FRow) (horizon : ℕ) (g u : ℕ → ℝ) (ut : ℝ)
    (today : Int) (g10 u6080 : ℕ → ℝ) : Except String (Option Series × Option Series) :=
  if data.isEmpty then .ok (none, none)
  else
    let valid := data.filterMap (fun r => r.date.map (fun d => (d, r)))
    if valid.isEmpty then .ok (none, none)
    else
      let ds := (sortAsc (valid.map Prod.fst)).dedup
      let daily : Series := ds.map (fun d =>
        (d,
          let rows := (valid.filter (fun p => p.1 == d)).map Prod.snd
          if 0 < rows.length then
            ((rows.filter (fun r => r.completed)).length : ℝ) / rows.length * 100
          else 0))
      if daily.length < 2 then
        .ok (some daily, some (create_fallback_forecast daily horizon today g10 u6080))
      else
        let fc := (exponential_smoothing_forecast "productivity_score" daily 0.4 horizon
          g u ut today g10 u6080).1
        if fc.isEmpty then .error "IndexError"
        else .ok (some daily, some fc)

/-- `forecast_productivity_score`: the body with every error mapped to the
`(None, None)` pair by the catch-all handler. -/
noncomputable def forecast_productivity_score (data : List FRow) (horizon : ℕ)
    (g u : ℕ → ℝ) (ut : ℝ) (today : Int) (g10 u6080 : ℕ → ℝ) :
    Option Series × Option Series :=
  match fps_body data horizon g u ut today g10 u6080 with
  | .ok p => p
  | .error _ => (none, none)

/-- The body of `forecast_workload`: the dense daily workload series, the
fallback (scaled by 60) on insufficient data, else the moving-average
forecast with window 7. -/
noncomputable def fw_body (data : List FRow) (horizon : ℕ) (g u : ℕ → ℝ)
    (today : Int) (g10 u6080 : ℕ → ℝ) : Except String (Option Series × Option Series) :=
  let ts := prepare_time_series data .time_taken
  if ts.isEmpty ∨ ts.length < 2 then
    .ok (some ts,
      some ((create_fallback_forecast ts horizon today g10 u6080).map
        (fun p => (p.1, p.2 * 60))))
  else
    .ok (some ts,
      some (moving_average_forecast "workload_minutes" ts 7 horizon g u today g10 u6080).1)

/-- `forecast_workload` with its catch-all handler. -/
noncomputable def forecast_workload (data : List FRow) (horizon : ℕ) (g u : ℕ → ℝ)
    (today : Int) (g10 u6080 : ℕ → ℝ) : Option Series × Option Series :=
  match fw_body data horizon g u today g10 u6080 with
  | .ok p => p
  | .error _ => (none, none)

/-- The body of `forecast_task_count`: the dense daily count series; the
fallback rounded to integers on insufficient data, else the exponential
smoothing forecast with alpha 0.3 rounded and clipped at 0. -/
noncomputable def ftc_body (data : List FRow) (horizon : ℕ) (g u : ℕ → ℝ) (ut : ℝ)
    (today : Int) (g10 u6080 : ℕ → ℝ) :
    Except String (Option Series × Option (List (Int × Int))) :=
  let ts := prepare_time_series data .task_count
  if ts.isEmpty ∨ ts.length < 2 then
    .ok (some ts,
      some ((create_fallback_forecast ts horizon today g10 u6080).map
        (fun p => (p.1, round p.2))))
  else
    let fc := (exponential_smoothing_forecast "task_count" ts 0.3 horizon
      g u ut today g10 u6080).1
    .ok (some ts, some (fc.map (fun p => (p.1, max 0 (round p.2)))))

/-- `forecast_task_count` with its catch-all handler. -/
noncomputable def forecast_task_count (data : List FRow) (horizon : ℕ) (g u : ℕ → ℝ)
    (ut : ℝ) (today : Int) (g10 u6080 : ℕ → ℝ) :
    Option Series × Option (List (Int × Int)) :=
  match ftc_body data horizon g u ut today g10 u6080 with
  | .ok p => p
  | .error _ => (none, none)

/-- The body of `forecast_completion_rate`: the dense daily completion-rate
series; the fallback clipped above at 100 on insufficient data, else the
exponential smoothing forecast with alpha 0.35 clipped above at 100. -/
noncomputable def fcr_body (data : List FRow) (horizon : ℕ) (g u : ℕ → ℝ) (ut : ℝ)
    (today : Int) (g10 u6080 : ℕ → ℝ) : Except String (Option Series × Option Series) :=
  let ts := prepare_time_series data .completion_rate
  if ts.isEmpty ∨ ts.length < 2 then
    .ok (some ts,
      some ((create_fallback_forecast ts horizon today g10 u6080).map
        (fun p => (p.1, min p.2 100))))
  else
    let fc := (exponential_smoothing_forecast "completion_rate" ts 0.35 horizon
      g u ut today g10 u6080).1
    .ok (some ts, some (fc.map (fun p => (p.1, min p.2 100))))

/-- `forecast_completion_rate` with its catch-all handler. -/
noncomputable def forecast_completion_rate (data : List FRow) (horizon : ℕ)
    (g u : ℕ → ℝ) (ut : ℝ) (today : Int) (g10 u6080 : ℕ → ℝ) :
    Option Series × Option Series :=
  match fcr_body data horizon g u ut today g10 u6080 with
  | .ok p => p
  | .error _ => (none, none)

theorem weekday_add (last : Int) (i : ℕ) :
    (weekday last + i) % 7 = weekday (last + (i : ℤ)) := by
  unfold weekday
  omega

/-- C3: for every history with at least 2 points and every horizon `h >= 1`,
each forecasting primitive returns a forecast with exactly `h` points whose
dates are the contiguous days `last + 1, ..., last + h` following the last
historical date. -/
theorem forecast_horizon_and_dates (name : String) (ts : Series) (window : ℕ)
    (alpha : ℝ) (h : ℕ) (g u : ℕ → ℝ) (ut : ℝ) (today : Int) (g10 u6080 : ℕ → ℝ)
    (hlen : 2 ≤ ts.length) (hh : 1 ≤ h) :
    ((moving_average_forecast name ts window h g u today g10 u6080).1.length = h ∧
      (moving_average_forecast name ts window h g u today g10 u6080).1.map Prod.fst =
        (List.range h).map (fun j : ℕ => lastDate ts + 1 + (j : ℤ))) ∧
    ((exponential_smoothing_forecast name ts alpha h g u ut today g10 u6080).1.length = h ∧
      (exponential_smoothing_forecast name ts alpha h g u ut today g10 u6080).1.map Prod.fst =
        (List.range h).map (fun j : ℕ => lastDate ts + 1 + (j : ℤ))) := by
  have hif : ¬ ts.length < 2 := by omega
  refine ⟨⟨?_, ?_⟩, ?_, ?_⟩
  · simp [moving_average_forecast, if_neg hif]
  · simp only [moving_average_forecast, if_neg hif, List.map_map]
    exact List.map_congr_left (fun j hj => by
      simp only [Function.comp_apply]; push_cast; ring)
  · simp [exponential_smoothing_forecast, if_neg hif]
  · simp only [exponential_smoothing_forecast, if_neg hif, List.map_map]
    exact List.map_congr_left (fun j hj => by
      simp only [Function.comp_apply]; push_cast; ring)

/-- C3 witness: a two-point history and horizon 1. -/
theorem forecast_horizon_and_dates_witness :
    (((moving_average_forecast "workload_minutes" [(0, 10), (1, 20)] 7 1
        (fun _ => 0) (fun _ => 0) 0 (fun _ => 0) (fun _ => 0)).1.length = 1 ∧
      (moving_average_forecast "workload_minutes" [(0, 10), (1, 20)] 7 1
        (fun _ => 0) (fun _ => 0) 0 (fun _ => 0) (fun _ => 0)).1.map Prod.fst =
        (List.range 1).map (fun j : ℕ => lastDate [(0, 10), (1, 20)] + 1 + (j : ℤ))) ∧
    ((exponential_smoothing_forecast "workload_minutes" [(0, 10), (1, 20)] 0.3 1
        (fun _ => 0) (fun _ => 0) 0 0 (fun _ => 0) (fun _ => 0)).1.length = 1 ∧
      (exponential_smoothing_forecast "workload_minutes" [(0, 10), (1, 20)] 0.3 1
        (fun _ => 0) (fun _ => 0) 0 0 (fun _ => 0) (fun _ => 0)).1.map Prod.fst =
        (List.range 1).map (fun j : ℕ => lastDate [(0, 10), (1, 20)] + 1 + (j : ℤ)))) :=
  forecast_horizon_and_dates "workload_minutes" [(0, 10), (1, 20)] 7 0.3 1
    (fun _ => 0) (fun _ => 0) 0 0 (fun _ => 0) (fun _ => 0) (by decide) (by decide)

theorem weekday_step (last : Int) (j : ℕ) :
    (weekday last + (j + 1)) % 7 = weekday (last + ((j : ℤ) + 1)) := by
  unfold weekday
  omega

/-- C5: the weekday seasonality table is exactly Mon 0.95, Tue 1.05, Wed 1.10,
Thu 1.05, Fri 0.90, Sat 0.60, Sun 0.50, and in the moving-average forecast the
factor applied at step `j` (0-based) is the factor of the weekday on which
that step's date `last + j + 1` falls, multiplying the smoothed baseline
before the trend and noise terms are added. -/
theorem seasonality_factor_spec :
    (get_seasonality_factor 0 = 0.95 ∧ get_seasonality_factor 1 = 1.05 ∧
      get_seasonality_factor 2 = 1.10 ∧ get_seasonality_factor 3 = 1.05 ∧
      get_seasonality_factor 4 = 0.90 ∧ get_seasonality_factor 5 = 0.60 ∧
      get_seasonality_factor 6 = 0.50) ∧
    (∀ (name : String) (ts : Series) (window h : ℕ) (g u : ℕ → ℝ) (today : Int)
        (g10 u6080 : ℕ → ℝ) (j : ℕ), 2 ≤ ts.length → j < h →
      ((moving_average_forecast name ts window h g u today g10 u6080).1.getD j (0, 0)).2 =
        bound name (maLastMA (vals ts) (maWindow ts.length window) *
          get_seasonality_factor (weekday (lastDate ts + ((j : ℤ) + 1))) +
          maTrend (vals ts) * ((j : ℝ) + 1) * 0.8 +
          (if maVol (vals ts) > 0 then maVol (vals ts) * 0.2 * g (j + 1) else u (j + 1)))) := by
  constructor
  · norm_num [get_seasonality_factor]
  · intro name ts window h g u today g10 u6080 j hlen hjh
    have hif : ¬ ts.length < 2 := by omega
    simp only [moving_average_forecast, if_neg hif, List.getD_eq_getElem?_getD,
      List.getElem?_map, List.getElem?_range hjh, Option.map_some', Option.getD_some]
    simp only [maStep, weekday_step]
    congr 1
    push_cast
    ring

theorem smoothedFrom_length (alpha p : ℝ) (ys : List ℝ) :
    (smoothedFrom alpha p ys).length = ys.length := by
  induction ys generalizing p with
  | nil => rfl
  | cons z zs ih => simp [smoothedFrom, ih]

theorem smoothedList_length (alpha : ℝ) (v : List ℝ) :
    (smoothedList alpha v).length = v.length := by
  cases v with
  | nil => rfl
  | cons y ys => simp [smoothedList, smoothedFrom_length]

theorem smoothed_recurrence_aux (alpha p : ℝ) (ys : List ℝ) :
    ∀ i, i < ys.length →
      (p :: smoothedFrom alpha p ys).getD (i + 1) 0 =
        alpha * ys.getD i 0 + (1 - alpha) * (p :: smoothedFrom alpha p ys).getD i 0 := by
  induction ys generalizing p with
  | nil => intro i hi; simp at hi
  | cons z zs ih =>
    intro i hi
    cases i with
    | zero => simp [smoothedFrom]
    | succ k =>
      have hk : k < zs.length := by simpa using Nat.lt_of_succ_lt_succ hi
      have := ih (alpha * z + (1 - alpha) * p) k hk
      simpa [smoothedFrom] using this

theorem smoothed_recurrence (alpha : ℝ) (v : List ℝ) (i : ℕ) (hi : i + 1 < v.length) :
    (smoothedList alpha v).getD (i + 1) 0 =
      alpha * v.getD (i + 1) 0 + (1 - alpha) * (smoothedList alpha v).getD i 0 := by
  cases v with
  | nil => simp at hi
  | cons y ys =>
    have hi' : i < ys.length := by simpa using Nat.lt_of_succ_lt_succ hi
    simpa [smoothedList] using smoothed_recurrence_aux alpha y ys i hi'

theorem getLastD_eq_getD (l : List ℝ) (d : ℝ) : l.getLastD d = l.getD (l.length - 1) d := by
  rw [List.getLastD_eq_getLast? d l, List.getLast?_eq_getElem?, List.getD_eq_getElem?_getD]

/-- The C6 property of one exponential-smoothing run, as the spec states it:
with `v` the history values, the smoothed list `s` has `s_0 = v_0` and
`s_i = alpha*v_i + (1-alpha)*s_(i-1)` over the full history; the trend is the
mean of the available components among the recent 3-day slope, the 7-day
slope weighted 0.7 and the (always available) full-history slope weighted
0.5; and the step-`j` forecast value is the bounding applied to
`(s_last + trend*(j+1)*0.6) * seasonality(date of step) + noise`, with noise
a Gaussian draw scaled by 15% of the history's standard deviation, or the
uniform fallback draw when that deviation is not positive. -/
def esForecastClaim (name : String) (ts : Series) (alpha : ℝ) (h : ℕ)
    (g u : ℕ → ℝ) (ut : ℝ) (today : Int) (g10 u6080 : ℕ → ℝ) : Prop :=
  let v := vals ts
  let s := smoothedList alpha v
  let n := s.length
  n = ts.length ∧
  s.getD 0 0 = v.getD 0 0 ∧
  (∀ i, i + 1 < n →
    s.getD (i + 1) 0 = alpha * v.getD (i + 1) 0 + (1 - alpha) * s.getD i 0) ∧
  esTrend s ut =
    meanR ((if 3 ≤ n then [(s.getD (n - 1) 0 - s.getD (n - 3) 0) / 3] else []) ++
      (if 7 ≤ n then [(s.getD (n - 1) 0 - s.getD (n - 7) 0) / 7 * 0.7] else []) ++
      [(s.getD (n - 1) 0 - s.getD 0 0) / (n : ℝ) * 0.5]) ∧
  (∀ j < h,
    ((exponential_smoothing_forecast name ts alpha h g u ut today g10 u6080).1.getD
        j (0, 0)).2 =
      bound name ((s.getD (n - 1) 0 + esTrend s ut * ((j : ℝ) + 1) * 0.6) *
        get_seasonality_factor (weekday (lastDate ts + ((j : ℤ) + 1))) +
        (if stdR v > 0 then stdR v * 0.15 * g (j + 1) else u (j + 1))))

/-- C6: for every history with at least 2 points, the exponential-smoothing
forecast satisfies `esForecastClaim`: the smoothing recurrence over the full
history, the trend as the mean of the available weighted slope components
(the random fallback trend is unreachable since the full-history component is
always available), and the per-step formula before bounding. -/
theorem exponential_smoothing_forecast_spec (name : String) (ts : Series)
    (alpha : ℝ) (h : ℕ) (g u : ℕ → ℝ) (ut : ℝ) (today : Int) (g10 u6080 : ℕ → ℝ)
    (hlen : 2 ≤ ts.length) :
    esForecastClaim name ts alpha h g u ut today g10 u6080 := by
  have hvlen : (vals ts).length = ts.length := by simp [vals]
  have hslen : (smoothedList alpha (vals ts)).length = ts.length := by
    rw [smoothedList_length, hvlen]
  refine ⟨hslen, ?_, ?_, ?_, ?_⟩
  · cases hv : vals ts with
    | nil => simp [smoothedList]
    | cons y ys => simp [smoothedList]
  · intro i hi
    exact smoothed_recurrence alpha (vals ts) i (by omega)
  · have hn2 : 2 ≤ (smoothedList alpha (vals ts)).length := by omega
    have hne : ¬ (esTrendComponents (smoothedList alpha (vals ts))).isEmpty = true := by
      unfold esTrendComponents
      rw [if_pos hn2]
      simp
    rw [esTrend, if_neg hne]
    unfold esTrendComponents
    rw [getLastD_eq_getD, if_pos hn2]
    by_cases h3 : 3 ≤ (smoothedList alpha (vals ts)).length
    · rw [if_pos h3, if_pos h3, min_eq_left h3]
      norm_num
    · rw [if_neg h3, if_neg h3]
  · intro j hj
    have hif : ¬ ts.length < 2 := by omega
    simp only [exponential_smoothing_forecast, if_neg hif, List.getD_eq_getElem?_getD,
      List.getElem?_map, List.getElem?_range hj, Option.map_some', Option.getD_some]
    simp only [esStep, weekday_step, getLastD_eq_getD, List.getD_eq_getElem?_getD]
    congr 2
    push_cast
    ring

/-- C6 witness: a concrete two-point history, alpha 0.35, horizon 1. -/
theorem exponential_smoothing_forecast_spec_witness :
    esForecastClaim "completion_rate" [(0, 10), (1, 20)] 0.35 1
      (fun _ => 0) (fun _ => 0) 0 0 (fun _ => 1) (fun _ => 70) :=
  exponential_smoothing_forecast_spec "completion_rate" [(0, 10), (1, 20)] 0.35 1
    (fun _ => 0) (fun _ => 0) 0 0 (fun _ => 1) (fun _ => 70) (by decide)

/-- C8: each of the four forecasting entry points catches every internal
error and returns the `(None, None)` pair instead of propagating it, and every
result is either that pair or a pair with both components present. -/
theorem forecast_entry_points_catch_all (data : List FRow) (horizon : ℕ)
    (g u : ℕ → ℝ) (ut : ℝ) (today : Int) (g10 u6080 : ℕ → ℝ) :
    ((∀ e, fps_body data horizon g u ut today g10 u6080 = Except.error e →
        forecast_productivity_score data horizon g u ut today g10 u6080 = (none, none)) ∧
      (forecast_productivity_score data horizon g u ut today g10 u6080 = (none, none) ∨
        ∃ a b, forecast_productivity_score data horizon g u ut today g10 u6080 =
          (some a, some b))) ∧
    ((∀ e, fw_body data horizon g u today g10 u6080 = Except.error e →
        forecast_workload data horizon g u today g10 u6080 = (none, none)) ∧
      (forecast_workload data horizon g u today g10 u6080 = (none, none) ∨
        ∃ a b, forecast_workload data horizon g u today g10 u6080 = (some a, some b))) ∧
    ((∀ e, ftc_body data horizon g u ut today g10 u6080 = Except.error e →
        forecast_task_count data horizon g u ut today g10 u6080 = (none, none)) ∧
      (forecast_task_count data horizon g u ut today g10 u6080 = (none, none) ∨
        ∃ a b, forecast_task_count data horizon g u ut today g10 u6080 =
          (some a, some b))) ∧
    ((∀ e, fcr_body data horizon g u ut today g10 u6080 = Except.error e →
        forecast_completion_rate data horizon g u ut today g10 u6080 = (none, none)) ∧
      (forecast_completion_rate data horizon g u ut today g10 u6080 = (none, none) ∨
        ∃ a b, forecast_completion_rate data horizon g u ut today g10 u6080 =
          (some a, some b))) := by
  refine ⟨⟨?_, ?_⟩, ⟨?_, ?_⟩, ⟨?_, ?_⟩, ⟨?_, ?_⟩⟩
  · intro e he
    simp [forecast_productivity_score, he]
  · simp only [forecast_productivity_score, fps_body]
    split_ifs <;> simp
  · intro e he
    simp [forecast_workload, he]
  · simp only [forecast_workload, fw_body]
    split_ifs <;> simp
  · intro e he
    simp [forecast_task_count, he]
  · simp only [forecast_task_count, ftc_body]
    split_ifs <;> simp
  · intro e he
    simp [forecast_completion_rate, he]
  · simp only [forecast_completion_rate, fcr_body]
    split_ifs <;> simp

theorem bound_nonneg (name : String) (v : ℝ) : 0 ≤ bound name v := by
  unfold bound
  split_ifs
  · exact le_max_left 0 _
  · exact le_max_left 0 _

theorem bound_le_100 (name : String) (v : ℝ) (hp : isPercentName name = true) :
    bound name v ≤ 100 := by
  unfold bound
  rw [if_pos hp]
  exact max_le (by norm_num) (min_le_left _ _)

theorem clip0100_bounds (x : ℝ) : 0 ≤ clip0100 x ∧ clip0100 x ≤ 100 :=
  ⟨le_min (le_max_right _ _) (by norm_num), min_le_right _ _⟩

theorem fallback_bounds (ts : Series) (h : ℕ) (today : Int) (g10 u6080 : ℕ → ℝ)
    (hu : ∀ i, 60 ≤ u6080 i ∧ u6080 i ≤ 80) :
    ∀ p ∈ create_fallback_forecast ts h today g10 u6080, 0 ≤ p.2 ∧ p.2 ≤ 100 := by
  intro p hp
  unfold create_fallback_forecast at hp
  split_ifs at hp
  · rcases List.mem_map.1 hp with ⟨k, -, rfl⟩
    have h1 := (hu k).1
    have h2 := (hu k).2
    dsimp only
    constructor <;> linarith
  · rcases List.mem_map.1 hp with ⟨k, -, rfl⟩
    exact clip0100_bounds _

theorem ma_forecast_bounds (name : String) (ts : Series) (window h : ℕ)
    (g u : ℕ → ℝ) (today : Int) (g10 u6080 : ℕ → ℝ)
    (hu : ∀ i, 60 ≤ u6080 i ∧ u6080 i ≤ 80) :
    ∀ p ∈ (moving_average_forecast name ts window h g u today g10 u6080).1,
      0 ≤ p.2 ∧ (isPercentName name = true → p.2 ≤ 100) := by
  intro p hp
  unfold moving_average_forecast at hp
  split_ifs at hp
  · dsimp only at hp
    have := fallback_bounds ts h today g10 u6080 hu p hp
    exact ⟨this.1, fun _ => this.2⟩
  · dsimp only at hp
    rcases List.mem_map.1 hp with ⟨j, -, rfl⟩
    dsimp only
    exact ⟨bound_nonneg _ _, fun hpc => bound_le_100 _ _ hpc⟩

theorem es_forecast_bounds (name : String) (ts : Series) (alpha : ℝ) (h : ℕ)
    (g u : ℕ → ℝ) (ut : ℝ) (today : Int) (g10 u6080 : ℕ → ℝ)
    (hu : ∀ i, 60 ≤ u6080 i ∧ u6080 i ≤ 80) :
    ∀ p ∈ (exponential_smoothing_forecast name ts alpha h g u ut today g10 u6080).1,
      0 ≤ p.2 ∧ (isPercentName name = true → p.2 ≤ 100) := by
  intro p hp
  unfold exponential_smoothing_forecast at hp
  split_ifs at hp
  · dsimp only at hp
    have := fallback_bounds ts h today g10 u6080 hu p hp
    exact ⟨this.1, fun _ => this.2⟩
  · dsimp only at hp
    rcases List.mem_map.1 hp with ⟨j, -, rfl⟩
    dsimp only
    exact ⟨bound_nonneg _ _, fun hpc => bound_le_100 _ _ hpc⟩

theorem round_nonneg_of_nonneg (x : ℝ) (hx : 0 ≤ x) : (0 : ℤ) ≤ round x := by
  rw [round_eq]
  exact Int.floor_nonneg.2 (by linarith)

/-- The C4 property: percentage-metric forecasts (name containing "score" or
"rate") stay in `[0, 100]` in both primitives and in the productivity and
completion-rate entry points; task-count forecasts are integers (by type)
that are never negative; and every other metric's forecast values (the
workload entry point and the primitives for any name) are at least 0. -/
def forecastBoundsAt (name : String) (ts : Series) (window : ℕ) (alpha : ℝ)
    (h : ℕ) (g u : ℕ → ℝ) (ut : ℝ) (today : Int) (g10 u6080 : ℕ → ℝ)
    (data : List FRow) : Prop :=
  (isPercentName name = true →
    ∀ p ∈ (moving_average_forecast name ts window h g u today g10 u6080).1,
      0 ≤ p.2 ∧ p.2 ≤ 100) ∧
  (∀ p ∈ (moving_average_forecast name ts window h g u today g10 u6080).1, 0 ≤ p.2) ∧
  (isPercentName name = true →
    ∀ p ∈ (exponential_smoothing_forecast name ts alpha h g u ut today g10 u6080).1,
      0 ≤ p.2 ∧ p.2 ≤ 100) ∧
  (∀ p ∈ (exponential_smoothing_forecast name ts alpha h g u ut today g10 u6080).1,
    0 ≤ p.2) ∧
  (∀ fc, (forecast_task_count data h g u ut today g10 u6080).2 = some fc →
    ∀ q ∈ fc, 0 ≤ q.2) ∧
  (∀ fc, (forecast_workload data h g u today g10 u6080).2 = some fc →
    ∀ q ∈ fc, 0 ≤ q.2) ∧
  (∀ fc, (forecast_completion_rate data h g u ut today g10 u6080).2 = some fc →
    ∀ q ∈ fc, 0 ≤ q.2 ∧ q.2 ≤ 100) ∧
  (∀ fc, (forecast_productivity_score data h g u ut today g10 u6080).2 = some fc →
    ∀ q ∈ fc, 0 ≤ q.2 ∧ q.2 ≤ 100)

/-- C4: under the support assumption on the `np.random.uniform(60, 80)` draws
used by the no-data fallback, every forecast satisfies `forecastBoundsAt`:
percentage metrics in `[0, 100]`, task counts non-negative integers, all
other metrics at least 0. -/
theorem forecast_value_bounds (name : String) (ts : Series) (window : ℕ)
    (alpha : ℝ) (h : ℕ) (g u : ℕ → ℝ) (ut : ℝ) (today : Int) (g10 u6080 : ℕ → ℝ)
    (data : List FRow) (hu : ∀ i, 60 ≤ u6080 i ∧ u6080 i ≤ 80) :
    forecastBoundsAt name ts window alpha h g u ut today g10 u6080 data := by
  refine ⟨?_, ?_, ?_, ?_, ?_, ?_, ?_, ?_⟩
  · intro hpc p hp
    have := ma_forecast_bounds name ts window h g u today g10 u6080 hu p hp
    exact ⟨this.1, this.2 hpc⟩
  · intro p hp
    exact (ma_forecast_bounds name ts window h g u today g10 u6080 hu p hp).1
  · intro hpc p hp
    have := es_forecast_bounds name ts alpha h g u ut today g10 u6080 hu p hp
    exact ⟨this.1, this.2 hpc⟩
  · intro p hp
    exact (es_forecast_bounds name ts alpha h g u ut today g10 u6080 hu p hp).1
  · intro fc hfc q hq
    simp only [forecast_task_count, ftc_body] at hfc
    split_ifs at hfc
    · simp only [Option.some.injEq] at hfc
      subst hfc
      rcases List.mem_map.1 hq with ⟨p, hp, rfl⟩
      exact round_nonneg_of_nonneg _
        ((fallback_bounds _ h today g10 u6080 hu p hp).1)
    · simp only [Option.some.injEq] at hfc
      subst hfc
      rcases List.mem_map.1 hq with ⟨p, hp, rfl⟩
      exact le_max_left 0 _
  · intro fc hfc q hq
    simp only [forecast_workload, fw_body] at hfc
    split_ifs at hfc
    · simp only [Option.some.injEq] at hfc
      subst hfc
      rcases List.mem_map.1 hq with ⟨p, hp, rfl⟩
      exact mul_nonneg ((fallback_bounds _ h today g10 u6080 hu p hp).1) (by norm_num)
    · simp only [Option.some.injEq] at hfc
      subst hfc
      exact (ma_forecast_bounds "workload_minutes" _ 7 h g u today g10 u6080 hu q hq).1
  · intro fc hfc q hq
    simp only [forecast_completion_rate, fcr_body] at hfc
    split_ifs at hfc
    · simp only [Option.some.injEq] at hfc
      subst hfc
      rcases List.mem_map.1 hq with ⟨p, hp, rfl⟩
      have := fallback_bounds _ h today g10 u6080 hu p hp
      exact ⟨le_min this.1 (by norm_num), min_le_right _ _⟩
    · simp only [Option.some.injEq] at hfc
      subst hfc
      rcases List.mem_map.1 hq with ⟨p, hp, rfl⟩
      have := es_forecast_bounds "completion_rate" _ 0.35 h g u ut today g10 u6080 hu p hp
      exact ⟨le_min this.1 (by norm_num), min_le_right _ _⟩
  · intro fc hfc q hq
    simp only [forecast_productivity_score, fps_body] at hfc
    split_ifs at hfc
    · simp only [Option.some.injEq] at hfc
      subst hfc
      exact fallback_bounds _ h today g10 u6080 hu q hq
    · simp only [Option.some.injEq] at hfc
      subst hfc
      have := es_forecast_bounds "productivity_score" _ 0.4 h g u ut today g10 u6080 hu q hq
      exact ⟨this.1, this.2 (by decide)⟩

/-- C4 witness: concrete history, horizon and oracles, with the uniform
fallback draws fixed at 70. -/
theorem forecast_value_bounds_witness :
    forecastBoundsAt "productivity_score" [(0, 10), (1, 20)] 7 0.4 7
      (fun _ => 0) (fun _ => 0) 0 0 (fun _ => 1) (fun _ => 70) [] :=
  forecast_value_bounds "productivity_score" [(0, 10), (1, 20)] 7 0.4 7
    (fun _ => 0) (fun _ => 0) 0 0 (fun _ => 1) (fun _ => 70) []
    (fun _ => by norm_num)

end Forecast

namespace Recommendations

/-- A raw task record as `recommend_tasks` (recommendations.py) reads it from
the frame or the input dictionary: free text is carried as token lists, the
numeric fields may be missing (`NaN`, modelled as `none`), and the categorical
fields may be missing too. -/
structure RTask where
  task : List String
  tags : List String
  notes : List String
  energy_level : Option ℚ
  focus_level : Option ℚ
  difficulty : Option ℚ
  category : Option String
  priority : Option String
  mood : Option String
  intent : Option String
  completed : Bool

/-- A preprocessed row: the combined-text terms and the imputed, clipped and
defaulted feature fields. -/
structure ProcTask where
  terms : List String
  energy : ℚ
  focus : ℚ
  difficulty : ℚ
  category : String
  priority : String
  mood : String
  intent : String

/-- Modelled from the spec: sklearn's built-in English stop-word list used by
`TfidfVectorizer(stop_words='english')` (the library is not part of this
repository's sources); a representative subset suffices here. -/
def englishStopWords : List String :=
  ["a", "an", "and", "are", "as", "at", "be", "but", "by", "for", "from",
   "has", "he", "in", "is", "it", "its", "of", "on", "that", "the", "to",
   "was", "were", "will", "with", "not", "no", "this", "these", "those",
   "they", "them"]

/-- The bigrams of a token list (`ngram_range=(1, 2)`). -/
def bigrams : List String → List String
  | a :: b :: rest => (a ++ " " ++ b) :: bigrams (b :: rest)
  | _ => []

/-- Modelled from the spec: the terms sklearn's analyzer extracts from a
document — stop words removed, then unigrams and bigrams of what remains. -/
def docTerms (toks : List String) : List String :=
  let ws := toks.filter (fun w => ! englishStopWords.contains w)
  ws ++ bigrams ws

/-- Insertion into an ascending list of rationals. -/
def insertAscQ (x : ℚ) : List ℚ → List ℚ
  | [] => [x]
  | y :: ys => if x ≤ y then x :: y :: ys else y :: insertAscQ x ys

/-- Ascending sort of rationals. -/
def sortAscQ (l : List ℚ) : List ℚ := l.foldr insertAscQ []

/-- The pandas median: middle element of the sorted column, or the mean of
the two middle elements.  (pandas yields NaN for an empty column; modelled
as 0 — no claim depends on that corner.) -/
def medianQ (l : List ℚ) : ℚ :=
  let s := sortAscQ l
  let n := s.length
  if n = 0 then 0
  else if n % 2 = 1 then s.getD (n / 2) 0
  else (s.getD (n / 2 - 1) 0 + s.getD (n / 2) 0) / 2

/-- One numeric column of `preprocess_data`: the sentinel -1 is replaced by
missing, and missing entries are filled with the column's median. -/
def cleanNum (xs : List (Option ℚ)) : List ℚ :=
  let rep := xs.map (fun x => x.bind (fun v => if v = -1 then none else some v))
  let med := medianQ (rep.filterMap id)
  rep.map (fun x => x.getD med)

/-- `Series.clip(lo, hi)`. -/
def clipQ (lo hi x : ℚ) : ℚ := min hi (max lo x)

/-- Embedding of `preprocess_data` (recommendations.py): combined text terms
per row, numeric columns median-imputed and clipped (energy and focus to
`[1, 10]`, difficulty to `[1, 5]`), categorical fields defaulted to
"unknown". -/
def preprocess_data (df : List RTask) : List ProcTask :=
  let es := (cleanNum (df.map RTask.energy_level)).map (clipQ 1 10)
  let fs := (cleanNum (df.map RTask.focus_level)).map (clipQ 1 10)
  let ds := (cleanNum (df.map RTask.difficulty)).map (clipQ 1 5)
  (df.zip (es.zip (fs.zip ds))).map (fun p =>
    { terms := docTerms (p.1.task ++ p.1.tags ++ p.1.notes)
      energy := p.2.1
      focus := p.2.2.1
      difficulty := p.2.2.2
      category := p.1.category.getD "unknown"
      priority := p.1.priority.getD "unknown"
      mood := p.1.mood.getD "unknown"
      intent := p.1.intent.getD "unknown" })

/-- Column mean. -/
def meanQ (xs : List ℚ) : ℚ := xs.sum / xs.length

/-- Population variance (`ddof = 0`, as sklearn's `StandardScaler` uses). -/
def varQ (xs : List ℚ) : ℚ := ((xs.map (fun x => (x - meanQ xs) ^ 2)).sum) / xs.length

/-- `StandardScaler` transform of one value by the statistics of the fitted
column: `(x - mean) / sqrt(var)`, with scale 1 when the variance is 0. -/
noncomputable def standardize (xs : List ℚ) (x : ℚ) : ℝ :=
  if varQ xs = 0 then (x : ℝ) - (meanQ xs : ℝ)
  else ((x : ℝ) - (meanQ xs : ℝ)) / Real.sqrt ((varQ xs : ℝ))

/-- Modelled from the spec: the term-frequency/inverse-document-frequency
vector of a document over the vocabulary fit on the pool, with the smoothed
inverse document frequency `(1 + N) / (1 + df)` as the idf weight (sklearn
itself is not part of this repository's sources; `min_df = 1` keeps every
term). -/
def tfidfVec (pool : List ProcTask) (terms : List String) : List ℚ :=
  let vocab := ((pool.map ProcTask.terms).join).dedup
  vocab.map (fun t =>
    (terms.count t : ℚ) *
      ((1 + (pool.length : ℚ)) /
        (1 + ((pool.filter (fun p => p.terms.contains t)).length : ℚ))))

/-- One-hot encoding of a value over the fitted category list; an unknown
value encodes as all zeros (`handle_unknown='ignore'`). -/
def oneHot (cats : List String) (v : String) : List ℝ :=
  cats.map (fun c => if v = c then 1 else 0)

/-- The scaled numeric feature block of a row. -/
noncomputable def numVec (pool : List ProcTask) (r : ProcTask) : List ℝ :=
  [standardize (pool.map ProcTask.energy) r.energy,
   standardize (pool.map ProcTask.focus) r.focus,
   standardize (pool.map ProcTask.difficulty) r.difficulty]

/-- The one-hot categorical block over the four columns, in the frame's
column order (category, priority, mood, intent). -/
def oneHotVec (pool : List ProcTask) (r : ProcTask) : List ℝ :=
  oneHot ((pool.map ProcTask.category).dedup) r.category ++
  oneHot ((pool.map ProcTask.priority).dedup) r.priority ++
  oneHot ((pool.map ProcTask.mood).dedup) r.mood ++
  oneHot ((pool.map ProcTask.intent).dedup) r.intent

/-- `np.hstack((text_features, numeric_features, categorical_features))` for
one row, with every encoder fit on the candidate pool. -/
noncomputable def featuresOf (pool : List ProcTask) (r : ProcTask) : List ℝ :=
  (tfidfVec pool r.terms).map (fun q => (q : ℝ)) ++ numVec pool r ++ oneHotVec pool r

/-- Dot product of two feature rows. -/
noncomputable def dotL (xs ys : List ℝ) : ℝ := (List.zipWith (fun a b => a * b) xs ys).sum

/-- Cosine similarity; a zero-norm row yields similarity 0 (division by zero
is 0 here, matching sklearn's zero-row handling). -/
noncomputable def cosineSim (xs ys : List ℝ) : ℝ :=
  dotL xs ys / (Real.sqrt (dotL xs xs) * Real.sqrt (dotL ys ys))

/-- Descending insertion by a real-valued key. -/
noncomputable def insertDescBy {α : Type} (key : α → ℝ) (p : α) : List α → List α
  | [] => [p]
  | q :: qs => if key q ≤ key p then p :: q :: qs else q :: insertDescBy key p qs

/-- Descending sort by a real-valued key (`sort_values(ascending=False)`). -/
noncomputable def sortDescBy {α : Type} (key : α → ℝ) (l : List α) : List α :=
  l.foldr (insertDescBy key) []

/-- Embedding of the `build_reason` helper: which of the four explanations
hold between a recommended row and the input task. -/
def build_reason (input r : RTask) : String :=
  let reasons :=
    (match r.category, input.category with
     | some a, some b => if a = b then ["same category"] else []
     | _, _ => []) ++
    (match r.priority, input.priority with
     | some a, some b => if a = b then ["matching priority"] else []
     | _, _ => []) ++
    (match r.intent, input.intent with
     | some a, some b => if a = b then ["similar intent"] else []
     | _, _ => []) ++
    (match r.difficulty, input.difficulty with
     | some a, some b => if |a - b| ≤ 1 then ["similar difficulty"] else []
     | _, _ => [])
  if reasons.isEmpty then "closest overall match" else String.intercalate ", " reasons

/-- Embedding of `recommend_tasks` (recommendations.py): empty result for a
pool of fewer than 5 records; optionally exclude completed rows; fit the
encoders on the working pool and score every row by cosine similarity with
the transformed input; sort descending, drop scores equal to 1.0, truncate to
`top_n`, attach the reason strings, and sort descending again. -/
noncomputable def recommend_tasks (input_task : RTask) (df : List RTask)
    (top_n : ℕ) (exclude_completed : Bool) : List (RTask × ℝ × String) :=
  if df.length < 5 then []
  else
    let work := if exclude_completed then df.filter (fun r => ! r.completed) else df
    if work.isEmpty then []
    else
      let P := preprocess_data work
      let pin := (preprocess_data [input_task]).headD ⟨[], 0, 0, 0, "", "", "", ""⟩
      let inF := featuresOf P pin
      let scored := work.zip ((P.map (featuresOf P)).map (cosineSim inF))
      let sortedL := sortDescBy (fun p => p.2) scored
      let kept := sortedL.filter (fun p => decide (p.2 ≠ 1))
      if kept.isEmpty then []
      else
        sortDescBy (fun p => p.2.1)
          ((kept.take top_n).map (fun p => (p.1, p.2, build_reason input_task p.1)))

theorem sortDescBy_cons {α : Type} (key : α → ℝ) (q : α) (qs : List α) :
    sortDescBy key (q :: qs) = insertDescBy key q (sortDescBy key qs) := rfl

theorem mem_insertDescBy {α : Type} (key : α → ℝ) (p x : α) (l : List α) :
    x ∈ insertDescBy key p l ↔ x = p ∨ x ∈ l := by
  induction l with
  | nil => simp [insertDescBy]
  | cons q qs ih =>
    unfold insertDescBy
    split_ifs
    · simp [List.mem_cons]
    · simp only [List.mem_cons, ih]
      tauto

theorem mem_sortDescBy {α : Type} (key : α → ℝ) (x : α) (l : List α) :
    x ∈ sortDescBy key l ↔ x ∈ l := by
  induction l with
  | nil => simp [sortDescBy]
  | cons q qs ih =>
    rw [sortDescBy_cons, mem_insertDescBy]
    simp [ih]

theorem sorted_insertDescBy {α : Type} (key : α → ℝ) (p : α) (l : List α)
    (h : l.Pairwise (fun a b => key b ≤ key a)) :
    (insertDescBy key p l).Pairwise (fun a b => key b ≤ key a) := by
  induction l with
  | nil => simp [insertDescBy]
  | cons q qs ih =>
    rcases List.pairwise_cons.1 h with ⟨hq, hqs⟩
    unfold insertDescBy
    split_ifs with hle
    · refine List.pairwise_cons.2 ⟨?_, h⟩
      intro b hb
      rcases List.mem_cons.1 hb with rfl | hb
      · exact hle
      · exact le_trans (hq b hb) hle
    · refine List.pairwise_cons.2 ⟨?_, ih hqs⟩
      intro b hb
      rcases (mem_insertDescBy key p b qs).1 hb with rfl | hb
      · exact le_of_not_le hle
      · exact hq b hb

theorem sorted_sortDescBy {α : Type} (key : α → ℝ) (l : List α) :
    (sortDescBy key l).Pairwise (fun a b => key b ≤ key a) := by
  induction l with
  | nil => simp [sortDescBy]
  | cons q qs ih => exact sorted_insertDescBy key q (sortDescBy key qs) ih

theorem dotL_self_nonneg (xs : List ℝ) : 0 ≤ dotL xs xs := by
  unfold dotL
  induction xs with
  | nil => simp
  | cons a as ih =>
    rw [List.zipWith_cons_cons, List.sum_cons]
    exact add_nonneg (mul_self_nonneg a) ih

theorem dotL_cons (a b : ℝ) (as bs : List ℝ) :
    dotL (a :: as) (b :: bs) = a * b + dotL as bs := by
  unfold dotL
  rw [List.zipWith_cons_cons, List.sum_cons]

theorem dotL_sq_le (xs ys : List ℝ) : (dotL xs ys) ^ 2 ≤ dotL xs xs * dotL ys ys := by
  induction xs generalizing ys with
  | nil => simp [dotL]
  | cons a as ih =>
    cases ys with
    | nil => simp [dotL]
    | cons b bs =>
      have h1 := ih bs
      have hX := dotL_self_nonneg as
      have hY := dotL_self_nonneg bs
      rw [dotL_cons, dotL_cons, dotL_cons]
      rcases eq_or_lt_of_le hX with hX0 | hXpos
      · have hd : dotL as bs = 0 := by
          have : dotL as bs ^ 2 ≤ 0 := by rw [← hX0] at h1; simpa using h1
          exact pow_eq_zero_iff (by norm_num) |>.1 (le_antisymm this (sq_nonneg _))
        rw [hd, ← hX0]
        nlinarith [sq_nonneg a, sq_nonneg b, mul_nonneg (mul_self_nonneg a) hY]
      · have key : dotL as as *
            ((a * a + dotL as as) * (b * b + dotL bs bs) - (a * b + dotL as bs) ^ 2) =
            (a * dotL as bs - b * dotL as as) ^ 2 +
              (dotL as as + a ^ 2) * (dotL as as * dotL bs bs - dotL as bs ^ 2) := by
          ring
        have h2 : 0 ≤ (a * dotL as bs - b * dotL as as) ^ 2 +
            (dotL as as + a ^ 2) * (dotL as as * dotL bs bs - dotL as bs ^ 2) :=
          add_nonneg (sq_nonneg _)
            (mul_nonneg (add_nonneg hX (sq_nonneg a)) (sub_nonneg.2 h1))
        have h3 := (mul_nonneg_iff_of_pos_left hXpos).1 (key ▸ h2)
        linarith

theorem cosineSim_bounds (xs ys : List ℝ) :
    -1 ≤ cosineSim xs ys ∧ cosineSim xs ys ≤ 1 := by
  unfold cosineSim
  have hA := dotL_self_nonneg xs
  have hB := dotL_self_nonneg ys
  rcases eq_or_lt_of_le
      (mul_nonneg (Real.sqrt_nonneg (dotL xs xs)) (Real.sqrt_nonneg (dotL ys ys))) with
    h0 | hpos
  · rw [← h0, div_zero]
    norm_num
  · have hsq : (dotL xs ys) ^ 2 ≤ (Real.sqrt (dotL xs xs) * Real.sqrt (dotL ys ys)) ^ 2 := by
      rw [mul_pow, Real.sq_sqrt hA, Real.sq_sqrt hB]
      exact dotL_sq_le xs ys
    have habs : |dotL xs ys| ≤ Real.sqrt (dotL xs xs) * Real.sqrt (dotL ys ys) := by
      calc |dotL xs ys| = Real.sqrt ((dotL xs ys) ^ 2) := (Real.sqrt_sq_eq_abs _).symm
        _ ≤ Real.sqrt ((Real.sqrt (dotL xs xs) * Real.sqrt (dotL ys ys)) ^ 2) :=
          Real.sqrt_le_sqrt hsq
        _ = |Real.sqrt (dotL xs xs) * Real.sqrt (dotL ys ys)| := Real.sqrt_sq_eq_abs _
        _ = Real.sqrt (dotL xs xs) * Real.sqrt (dotL ys ys) := abs_of_pos hpos
    constructor
    · rw [le_div_iff hpos]
      linarith [(abs_le.1 habs).1]
    · rw [div_le_one hpos]
      exact (abs_le.1 habs).2

/-- C9: for every candidate pool with fewer than 5 records, `recommend_tasks`
returns an empty result, whatever the context task, the requested top-N and
the exclude-completed flag. -/
theorem recommend_tasks_small_pool_empty (input : RTask) (df : List RTask)
    (n : ℕ) (ex : Bool) (hdf : df.length < 5) :
    recommend_tasks input df n ex = [] := by
  unfold recommend_tasks
  rw [if_pos hdf]

/-- C9 witness: a four-record pool yields no recommendation for either value
of the exclude-completed flag. -/
theorem recommend_tasks_small_pool_empty_witness :
    recommend_tasks
      ⟨["plan"], [], [], some 5, some 5, some 3, some "Work", some "Medium",
        some "Neutral", some "Complete", false⟩
      [⟨["alpha"], [], [], some 4, some 5, some 3, some "Work", some "Medium",
          some "Neutral", some "Complete", false⟩,
        ⟨["bravo"], [], [], some 4, some 5, some 3, some "Work", some "Medium",
          some "Neutral", some "Complete", false⟩,
        ⟨["cedar"], [], [], some 4, some 5, some 3, some "Work", some "Medium",
          some "Neutral", some "Complete", true⟩,
        ⟨["delta"], [], [], some 4, some 5, some 3, some "Work", some "Medium",
          some "Neutral", some "Complete", false⟩]
      8 true = [] :=
  recommend_tasks_small_pool_empty _ _ 8 true (by decide)

/-- C2 amended: for every context task and candidate pool, every similarity
score attached to a returned recommendation lies in `[-1, 1]` (cosine
similarity over standardized features can be negative, so `[0, 1]` is wrong),
the returned rows are sorted by similarity score in descending order, and no
returned row has similarity score exactly 1.0. -/
theorem recommend_tasks_scores_spec (input : RTask) (df : List RTask)
    (n : ℕ) (ex : Bool) :
    (∀ p ∈ recommend_tasks input df n ex, -1 ≤ p.2.1 ∧ p.2.1 ≤ 1 ∧ p.2.1 ≠ 1) ∧
    (recommend_tasks input df n ex).Pairwise (fun a b => b.2.1 ≤ a.2.1) := by
  simp only [recommend_tasks]
  split_ifs <;>
    first
      | exact ⟨fun p hp => absurd hp (List.not_mem_nil p), List.Pairwise.nil⟩
      | (refine ⟨?_, sorted_sortDescBy _ _⟩
         intro p hp
         rw [mem_sortDescBy] at hp
         rcases List.mem_map.1 hp with ⟨q, hq, rfl⟩
         have hq2 := List.mem_of_mem_take hq
         rcases List.mem_filter.1 hq2 with ⟨hqs, hne⟩
         have hne' : q.2 ≠ 1 := of_decide_eq_true hne
         rw [mem_sortDescBy] at hqs
         rcases List.mem_map.1 (List.of_mem_zip hqs).2 with ⟨f, -, hf⟩
         dsimp only
         rw [← hf]
         rw [← hf] at hne'
         exact ⟨(cosineSim_bounds _ f).1, (cosineSim_bounds _ f).2, hne'⟩)

/-- A candidate record of the C2 counterexample pool: one content word, fixed
focus 5 and difficulty 3, category "Work", not completed. -/
def cexRec (w : String) (e : ℚ) : RTask :=
  ⟨[w], [], [], some e, some 5, some 3, some "Work", some "Medium",
    some "Neutral", some "Complete", false⟩

/-- The C2 counterexample pool: five candidates, four with energy 4 and one
with energy 9 (energy mean 5 and population variance 4 across the pool). -/
def cexPool : List RTask :=
  [cexRec "alpha" 4, cexRec "bravo" 4, cexRec "cedar" 4, cexRec "delta" 4,
   cexRec "ember" 9]

/-- The C2 counterexample context task: out-of-vocabulary text, categorical
values unseen in the pool, energy 9. -/
def cexInput : RTask :=
  ⟨["zulu"], [], [], some 9, some 5, some 3, some "Home", some "Low",
    some "Happy", some "Learn", false⟩

/-- The preprocessed form of a pool candidate. -/
def cexProc (w : String) (e : ℚ) : ProcTask :=
  ⟨[w], e, 5, 3, "Work", "Medium", "Neutral", "Complete"⟩

/-- The preprocessed counterexample pool. -/
def cexProcPool : List ProcTask :=
  [cexProc "alpha" 4, cexProc "bravo" 4, cexProc "cedar" 4, cexProc "delta" 4,
   cexProc "ember" 9]

/-- The preprocessed context row. -/
def cexProcIn : ProcTask := ⟨["zulu"], 9, 5, 3, "Home", "Low", "Happy", "Learn"⟩

/-- The transformed context features: zero text block (out-of-vocabulary),
standardized energy 2, zero one-hot block (unseen categories). -/
noncomputable def cexInF : List ℝ := [0, 0, 0, 0, 0, 2, 0, 0, 0, 0, 0, 0]

noncomputable def cexF1 : List ℝ := [3, 0, 0, 0, 0, -(1/2), 0, 0, 1, 1, 1, 1]

noncomputable def cexF2 : List ℝ := [0, 3, 0, 0, 0, -(1/2), 0, 0, 1, 1, 1, 1]

noncomputable def cexF3 : List ℝ := [0, 0, 3, 0, 0, -(1/2), 0, 0, 1, 1, 1, 1]

noncomputable def cexF4 : List ℝ := [0, 0, 0, 3, 0, -(1/2), 0, 0, 1, 1, 1, 1]

noncomputable def cexF5 : List ℝ := [0, 0, 0, 0, 3, 2, 0, 0, 1, 1, 1, 1]

theorem cex_preprocess_pool : preprocess_data cexPool = cexProcPool := by
  have h1 : "alpha" ∉ englishStopWords := by decide
  have h2 : "bravo" ∉ englishStopWords := by decide
  have h3 : "cedar" ∉ englishStopWords := by decide
  have h4 : "delta" ∉ englishStopWords := by decide
  have h5 : "ember" ∉ englishStopWords := by decide
  norm_num [preprocess_data, cleanNum, medianQ, sortAscQ, insertAscQ, clipQ,
    docTerms, bigrams, cexPool, cexRec, cexProcPool, cexProc, List.zip]
  exact ⟨h1, h2, h3, h4, h5⟩

theorem cex_preprocess_in :
    (preprocess_data [cexInput]).headD ⟨[], 0, 0, 0, "", "", "", ""⟩ = cexProcIn := by
  have h1 : "zulu" ∉ englishStopWords := by decide
  norm_num [preprocess_data, cleanNum, medianQ, sortAscQ, insertAscQ, clipQ,
    docTerms, bigrams, cexInput, cexProcIn, List.zip]
  exact h1

theorem cex_vocab :
    ((cexProcPool.map ProcTask.terms).join).dedup =
      ["alpha", "bravo", "cedar", "delta", "ember"] := by decide

theorem cex_cats : (cexProcPool.map ProcTask.category).dedup = ["Work"] := by decide

theorem cex_pris : (cexProcPool.map ProcTask.priority).dedup = ["Medium"] := by decide

theorem cex_moods : (cexProcPool.map ProcTask.mood).dedup = ["Neutral"] := by decide

theorem cex_intents : (cexProcPool.map ProcTask.intent).dedup = ["Complete"] := by decide

theorem cex_df_alpha :
    (cexProcPool.filter (fun p => p.terms.contains "alpha")).length = 1 := by decide

theorem cex_df_bravo :
    (cexProcPool.filter (fun p => p.terms.contains "bravo")).length = 1 := by decide

theorem cex_df_cedar :
    (cexProcPool.filter (fun p => p.terms.contains "cedar")).length = 1 := by decide

theorem cex_df_delta :
    (cexProcPool.filter (fun p => p.terms.contains "delta")).length = 1 := by decide

theorem cex_df_ember :
    (cexProcPool.filter (fun p => p.terms.contains "ember")).length = 1 := by decide

theorem cex_pool_len : cexProcPool.length = 5 := rfl

theorem cex_energies : cexProcPool.map ProcTask.energy = [4, 4, 4, 4, 9] := rfl

theorem cex_focuses : cexProcPool.map ProcTask.focus = [5, 5, 5, 5, 5] := rfl

theorem cex_diffs : cexProcPool.map ProcTask.difficulty = [3, 3, 3, 3, 3] := rfl

theorem count_single_self (a : String) : ([a] : List String).count a = 1 := by simp

theorem count_single_ne (a b : String) (h : ¬ a = b) :
    ([b] : List String).count a = 0 := by
  simp [List.count_cons, h]

theorem cex_sqrt_four : Real.sqrt (4 : ℝ) = 2 := by
  rw [show (4 : ℝ) = 2 ^ 2 by norm_num]
  exact Real.sqrt_sq (by norm_num)

theorem cex_features_in : featuresOf cexProcPool cexProcIn = cexInF := by
  norm_num [featuresOf, tfidfVec, numVec, oneHotVec, standardize, oneHot, meanQ,
    varQ, cexProcIn, cexInF, cex_vocab, cex_cats, cex_pris, cex_moods,
    cex_intents, cex_df_alpha, cex_df_bravo, cex_df_cedar, cex_df_delta,
    cex_df_ember, cex_pool_len, cex_energies, cex_focuses, cex_diffs,
    count_single_ne, count_single_self, cex_sqrt_four]
  refine ⟨Or.inl (by decide), Or.inl (by decide), Or.inl (by decide),
    Or.inl (by decide), Or.inl (by decide), by decide, by decide, by decide, by decide⟩

theorem cex_dfm_alpha :
    (List.filter (fun p => decide ("alpha" ∈ p.terms)) cexProcPool).length = 1 := by decide

theorem cex_dfm_bravo :
    (List.filter (fun p => decide ("bravo" ∈ p.terms)) cexProcPool).length = 1 := by decide

theorem cex_dfm_cedar :
    (List.filter (fun p => decide ("cedar" ∈ p.terms)) cexProcPool).length = 1 := by decide

theorem cex_dfm_delta :
    (List.filter (fun p => decide ("delta" ∈ p.terms)) cexProcPool).length = 1 := by decide

theorem cex_dfm_ember :
    (List.filter (fun p => decide ("ember" ∈ p.terms)) cexProcPool).length = 1 := by decide

theorem cex_features_1 : featuresOf cexProcPool (cexProc "alpha" 4) = cexF1 := by
  norm_num [featuresOf, tfidfVec, numVec, oneHotVec, standardize, oneHot, meanQ,
    varQ, cexProc, cexF1, cex_vocab, cex_cats, cex_pris, cex_moods, cex_intents,
    cex_pool_len, cex_energies, cex_focuses, cex_diffs, count_single_ne,
    count_single_self, cex_sqrt_four, cex_dfm_alpha, cex_dfm_bravo,
    cex_dfm_cedar, cex_dfm_delta, cex_dfm_ember]
  refine ⟨by decide, by decide, by decide, by decide⟩

theorem cex_features_2 : featuresOf cexProcPool (cexProc "bravo" 4) = cexF2 := by
  norm_num [featuresOf, tfidfVec, numVec, oneHotVec, standardize, oneHot, meanQ,
    varQ, cexProc, cexF2, cex_vocab, cex_cats, cex_pris, cex_moods, cex_intents,
    cex_pool_len, cex_energies, cex_focuses, cex_diffs, count_single_ne,
    count_single_self, cex_sqrt_four, cex_dfm_alpha, cex_dfm_bravo,
    cex_dfm_cedar, cex_dfm_delta, cex_dfm_ember]
  refine ⟨by decide, by decide, by decide, by decide⟩

theorem cex_features_3 : featuresOf cexProcPool (cexProc "cedar" 4) = cexF3 := by
  norm_num [featuresOf, tfidfVec, numVec, oneHotVec, standardize, oneHot, meanQ,
    varQ, cexProc, cexF3, cex_vocab, cex_cats, cex_pris, cex_moods, cex_intents,
    cex_pool_len, cex_energies, cex_focuses, cex_diffs, count_single_ne,
    count_single_self, cex_sqrt_four, cex_dfm_alpha, cex_dfm_bravo,
    cex_dfm_cedar, cex_dfm_delta, cex_dfm_ember]
  refine ⟨by decide, by decide, by decide, by decide⟩

theorem cex_features_4 : featuresOf cexProcPool (cexProc "delta" 4) = cexF4 := by
  norm_num [featuresOf, tfidfVec, numVec, oneHotVec, standardize, oneHot, meanQ,
    varQ, cexProc, cexF4, cex_vocab, cex_cats, cex_pris, cex_moods, cex_intents,
    cex_pool_len, cex_energies, cex_focuses, cex_diffs, count_single_ne,
    count_single_self, cex_sqrt_four, cex_dfm_alpha, cex_dfm_bravo,
    cex_dfm_cedar, cex_dfm_delta, cex_dfm_ember]
  refine ⟨by decide, by decide, by decide, by decide⟩

theorem cex_features_5 : featuresOf cexProcPool (cexProc "ember" 9) = cexF5 := by
  norm_num [featuresOf, tfidfVec, numVec, oneHotVec, standardize, oneHot, meanQ,
    varQ, cexProc, cexF5, cex_vocab, cex_cats, cex_pris, cex_moods, cex_intents,
    cex_pool_len, cex_energies, cex_focuses, cex_diffs, count_single_ne,
    count_single_self, cex_sqrt_four, cex_dfm_alpha, cex_dfm_bravo,
    cex_dfm_cedar, cex_dfm_delta, cex_dfm_ember]
  refine ⟨by decide, by decide, by decide, by decide⟩

theorem cex_features_map :
    cexProcPool.map (featuresOf cexProcPool) = [cexF1, cexF2, cexF3, cexF4, cexF5] := by
  have h : cexProcPool.map (featuresOf cexProcPool) =
      [featuresOf cexProcPool (cexProc "alpha" 4),
        featuresOf cexProcPool (cexProc "bravo" 4),
        featuresOf cexProcPool (cexProc "cedar" 4),
        featuresOf cexProcPool (cexProc "delta" 4),
        featuresOf cexProcPool (cexProc "ember" 9)] := rfl
  rw [h, cex_features_1, cex_features_2, cex_features_3, cex_features_4,
    cex_features_5]

theorem cex_sqrt_quarter : Real.sqrt (53 / 4 : ℝ) = Real.sqrt 53 / 2 := by
  rw [Real.sqrt_div (by norm_num) 4, show (4 : ℝ) = 2 ^ 2 by norm_num,
    Real.sqrt_sq (by norm_num)]

theorem cex_cos_1 : cosineSim cexInF cexF1 = -(Real.sqrt 53)⁻¹ := by
  have hd : dotL cexInF cexF1 = -1 := by norm_num [dotL, cexInF, cexF1]
  have hs1 : dotL cexInF cexInF = 4 := by norm_num [dotL, cexInF]
  have hs2 : dotL cexF1 cexF1 = 53 / 4 := by norm_num [dotL, cexF1]
  unfold cosineSim
  rw [hd, hs1, hs2, cex_sqrt_four, cex_sqrt_quarter,
    show (2 : ℝ) * (Real.sqrt 53 / 2) = Real.sqrt 53 by ring, neg_div, one_div]

theorem cex_cos_2 : cosineSim cexInF cexF2 = -(Real.sqrt 53)⁻¹ := by
  have hd : dotL cexInF cexF2 = -1 := by norm_num [dotL, cexInF, cexF2]
  have hs1 : dotL cexInF cexInF = 4 := by norm_num [dotL, cexInF]
  have hs2 : dotL cexF2 cexF2 = 53 / 4 := by norm_num [dotL, cexF2]
  unfold cosineSim
  rw [hd, hs1, hs2, cex_sqrt_four, cex_sqrt_quarter,
    show (2 : ℝ) * (Real.sqrt 53 / 2) = Real.sqrt 53 by ring, neg_div, one_div]

theorem cex_cos_3 : cosineSim cexInF cexF3 = -(Real.sqrt 53)⁻¹ := by
  have hd : dotL cexInF cexF3 = -1 := by norm_num [dotL, cexInF, cexF3]
  have hs1 : dotL cexInF cexInF = 4 := by norm_num [dotL, cexInF]
  have hs2 : dotL cexF3 cexF3 = 53 / 4 := by norm_num [dotL, cexF3]
  unfold cosineSim
  rw [hd, hs1, hs2, cex_sqrt_four, cex_sqrt_quarter,
    show (2 : ℝ) * (Real.sqrt 53 / 2) = Real.sqrt 53 by ring, neg_div, one_div]

theorem cex_cos_4 : cosineSim cexInF cexF4 = -(Real.sqrt 53)⁻¹ := by
  have hd : dotL cexInF cexF4 = -1 := by norm_num [dotL, cexInF, cexF4]
  have hs1 : dotL cexInF cexInF = 4 := by norm_num [dotL, cexInF]
  have hs2 : dotL cexF4 cexF4 = 53 / 4 := by norm_num [dotL, cexF4]
  unfold cosineSim
  rw [hd, hs1, hs2, cex_sqrt_four, cex_sqrt_quarter,
    show (2 : ℝ) * (Real.sqrt 53 / 2) = Real.sqrt 53 by ring, neg_div, one_div]

theorem cex_cos_5 : cosineSim cexInF cexF5 = 2 / Real.sqrt 17 := by
  have hd : dotL cexInF cexF5 = 4 := by norm_num [dotL, cexInF, cexF5]
  have hs1 : dotL cexInF cexInF = 4 := by norm_num [dotL, cexInF]
  have hs2 : dotL cexF5 cexF5 = 17 := by norm_num [dotL, cexF5]
  unfold cosineSim
  rw [hd, hs1, hs2, cex_sqrt_four]
  rw [div_eq_div_iff (by positivity) (by positivity)]
  ring

/-- C2 counterexample: on the concrete five-candidate pool `cexPool` with
context task `cexInput`, `recommend_tasks` returns rows whose similarity
score is `-1/sqrt 53 < 0` (cosine similarity over the standardized energy
feature is negative for the four low-energy candidates), so the claimed
`[0, 1]` score range is false on the code. -/
theorem recommend_tasks_negative_score_cex :
    ∃ p ∈ recommend_tasks cexInput cexPool 3 true, p.2.1 < 0 := by
  have h53 : (0 : ℝ) < Real.sqrt 53 := Real.sqrt_pos.2 (by norm_num)
  have h17 : (0 : ℝ) < Real.sqrt 17 := Real.sqrt_pos.2 (by norm_num)
  have hneg : -(Real.sqrt 53)⁻¹ < 0 := neg_lt_zero.2 (inv_pos.2 h53)
  have hpos : (0 : ℝ) < 2 / Real.sqrt 17 := by positivity
  have hlt1 : (2 : ℝ) / Real.sqrt 17 < 1 := by
    rw [div_lt_one h17]
    calc (2 : ℝ) = Real.sqrt 4 := cex_sqrt_four.symm
      _ < Real.sqrt 17 := Real.sqrt_lt_sqrt (by norm_num) (by norm_num)
  have hA : ((2 / Real.sqrt 17 : ℝ) ≤ -(Real.sqrt 53)⁻¹) = False :=
    eq_false (not_le.2 (lt_trans hneg hpos))
  have hB : ((-(Real.sqrt 53)⁻¹ : ℝ) ≤ -(Real.sqrt 53)⁻¹) = True := eq_true le_rfl
  have hC : ((-(Real.sqrt 53)⁻¹ : ℝ) ≤ 2 / Real.sqrt 17) = True :=
    eq_true (le_of_lt (lt_trans hneg hpos))
  have hD1 : (decide ((2 / Real.sqrt 17 : ℝ) ≠ 1)) = true :=
    decide_eq_true (ne_of_lt hlt1)
  have hD2 : (decide ((-(Real.sqrt 53)⁻¹ : ℝ) ≠ 1)) = true :=
    decide_eq_true (ne_of_lt (lt_trans hneg one_pos))
  have hlen5 : (cexPool.length < 5) = False := by decide
  have hflt : cexPool.filter (fun r => ! r.completed) = cexPool := rfl
  have hemp : cexPool.isEmpty = false := rfl
  have hzip : cexPool.zip
      ([-(Real.sqrt 53)⁻¹, -(Real.sqrt 53)⁻¹, -(Real.sqrt 53)⁻¹, -(Real.sqrt 53)⁻¹,
        2 / Real.sqrt 17] : List ℝ) =
      [(cexRec "alpha" 4, -(Real.sqrt 53)⁻¹), (cexRec "bravo" 4, -(Real.sqrt 53)⁻¹),
        (cexRec "cedar" 4, -(Real.sqrt 53)⁻¹), (cexRec "delta" 4, -(Real.sqrt 53)⁻¹),
        (cexRec "ember" 9, 2 / Real.sqrt 17)] := rfl
  simp only [recommend_tasks, hlen5, hflt, hemp, cex_preprocess_pool,
    cex_preprocess_in, cex_features_in, cex_features_map, List.map_cons,
    List.map_nil, cex_cos_1, cex_cos_2, cex_cos_3, cex_cos_4, cex_cos_5, hzip,
    sortDescBy, List.foldr_cons, List.foldr_nil, insertDescBy, hA, hB, hC,
    if_true, if_false, List.filter_cons, List.filter_nil, hD1, hD2,
    List.take_succ_cons, List.take_zero, List.isEmpty_cons, Bool.false_eq_true,
    eq_self_iff_true]
  exact ⟨(cexRec "alpha" 4, -(Real.sqrt 53)⁻¹, build_reason cexInput (cexRec "alpha" 4)),
    List.mem_cons_of_mem _ (List.mem_cons_self _ _), hneg⟩

end Recommendations
